import Mathlib

/-!
Shallow embedding of the service-lifecycle core of `src/mcp-server.js`.
The source file holds two programs sharing one design: an MCP (tool-call)
server and an HTTP dashboard server.  External effects (the `lsof` probe,
`spawn`, the `kill` pipeline) are modelled by passing the probe's captured
output in as data and returning the list of issued effects alongside each
result.  The JavaScript string operations used by the code (`trim`,
`split`, `replace(/^~/, HOME)`) are embedded as structurally recursive
functions on the character list of a string.
-/

namespace LocalhostDashboard

/-- JavaScript whitespace characters relevant to `String.prototype.trim`
for the outputs handled here (space, tab, newline, carriage return). -/
def isWsChar (c : Char) : Bool :=
  c = ' ' || c = '\t' || c = '\n' || c = '\r'

/-- JavaScript `s.trim()`: strip leading and trailing whitespace. -/
def jsTrim (s : String) : String :=
  ⟨((s.data.dropWhile isWsChar).reverse.dropWhile isWsChar).reverse⟩

/-- Character-level splitting; `splitCharAux sep` of the empty list is
`[[]]`, matching JavaScript `"".split(sep) === [""]`. -/
def splitCharAux (sep : Char) : List Char → List (List Char)
  | [] => [[]]
  | c :: rest =>
    if c = sep then [] :: splitCharAux sep rest
    else
      match splitCharAux sep rest with
      | [] => [[c]]
      | h :: t => (c :: h) :: t

/-- JavaScript `s.split(sep)` for a one-character separator. -/
def jsSplit (sep : Char) (s : String) : List String :=
  (splitCharAux sep s.data).map (fun l => ⟨l⟩)

/-- Outcome of `exec` running the external inspection command
`lsof -i :port -t`: the error flag passed to the callback and the captured
standard output (`stdout`). -/
structure ExecOutcome where
  error : Bool
  stdout : String
deriving DecidableEq

/-- The `{ running, pid }` record produced by `checkPort`. -/
structure PortStatus where
  running : Bool
  pid : Option String
deriving DecidableEq

/-- JavaScript `x || null` on an optional string: `null`, `undefined` and
the empty string are falsy and collapse to `null`. -/
def jsOrNull : Option String → Option String
  | some s => if s = "" then none else some s
  | none => none

/-- `stdout.trim().split('\n')[0] || null` from the MCP `checkPort`
(src/mcp-server.js lines 45-54), applied to the already-trimmed text. -/
def firstLineOrNull (t : String) : Option String :=
  jsOrNull ((jsSplit '\n' t).head?)

/-- MCP `checkPort` (src/mcp-server.js lines 45-54): resolves
`{ running: !!stdout.trim(), pid: stdout.trim().split('\n')[0] || null }`
regardless of the `error` argument; the promise never rejects. -/
def checkPort (out : ExecOutcome) : PortStatus :=
  let t := jsTrim out.stdout
  { running := !(t == ""), pid := firstLineOrNull t }

/-- HTTP `checkPort` (src/mcp-server.js lines 400-406): resolves
`{ running: true, pid: first line }` when the trimmed output is truthy,
else `{ running: false }` (no `pid` key, modelled as `none`). -/
def checkPortHttp (out : ExecOutcome) : PortStatus :=
  let t := jsTrim out.stdout
  if t = "" then { running := false, pid := none }
  else { running := true, pid := (jsSplit '\n' t).head? }

/-- A configured service descriptor from `services.json`. -/
structure Service where
  name : String
  port : Nat
  path : String
  startCmd : String
  type : String
  github : Option String
deriving DecidableEq

/-- Result of reading and parsing the configuration file: success with the
`services` array, or an unreadable file, or malformed JSON. -/
inductive ConfigRead where
  | ok (services : List Service)
  | unreadable
  | malformed
deriving DecidableEq

/-- MCP `loadServices` (src/mcp-server.js lines 31-37): the `try`/`catch`
returns the empty list on any read or parse failure.  (The HTTP server's
`loadServices`, lines 389-392, has no catch and would throw instead.) -/
def loadServices : ConfigRead → List Service
  | .ok l => l
  | .unreadable => []
  | .malformed => []

/-- `expandPath` (both servers): `p.replace(/^~/, HOME)` replaces a single
leading tilde with the home directory. -/
def expandPath (home p : String) : String :=
  match p.data with
  | '~' :: rest => home ++ String.mk rest
  | _ => p

/-- `services.find(s => s.port === port)`, the registry lookup used by
`startService`, `check_port`, `get_service_info` and the HTTP handlers. -/
def findByPort (services : List Service) (port : Nat) : Option Service :=
  services.find? (fun s => s.port == port)

/-- External effects issued by the lifecycle operations: a `spawn` of a
detached child (command, argument list, working directory, the PORT value
injected into its environment), or the termination pipeline
`lsof -i :port -t | xargs kill -9`. -/
inductive Effect where
  | spawnChild (cmd : String) (args : List String) (cwd : String) (portEnv : String)
  | killByPort (port : Nat)
deriving DecidableEq

/-- Result value of the MCP `startService`: `{ success: false, error }` or
`{ success: true, service, port, started, message }`. -/
inductive StartResult where
  | failure (error : String)
  | success (service : String) (port : Nat) (started : Bool) (message : String)
deriving DecidableEq

/-- Result value of the MCP `stopService`. -/
inductive StopResult where
  | failure (error : String)
  | success (message : String)
deriving DecidableEq

/-- JavaScript template interpolation of a possibly-`null` string. -/
def jsShowOpt : Option String → String
  | none => "null"
  | some s => s

/-- MCP `startService` (src/mcp-server.js lines 79-121).  `fs` is the set of
existing directories; `probe` is the `lsof` outcome of the pre-spawn check
and `reprobe` the outcome of the re-check after the 2000 ms settling delay.
Returns the resolved result and the list of issued effects. -/
def startService (home : String) (config : ConfigRead) (fs : List String)
    (probe reprobe : ExecOutcome) (port : Nat) : StartResult × List Effect :=
  let services := loadServices config
  match services.find? (fun s => s.port == port) with
  | none => (.failure ("No service configured for port " ++ toString port), [])
  | some service =>
    let cwd := expandPath home service.path
    if cwd ∈ fs then
      let status := checkPort probe
      if status.running then
        (.failure ("Port " ++ toString port ++ " already in use (pid: "
            ++ jsShowOpt status.pid ++ ")"), [])
      else
        let parts := jsSplit ' ' service.startCmd
        let newStatus := checkPort reprobe
        (.success service.name port newStatus.running
          (if newStatus.running then
            "Started " ++ service.name ++ " on port " ++ toString port
          else "Start command sent, but service may still be initializing"),
         [.spawnChild (parts.headD "") parts.tail cwd (toString port)])
    else
      (.failure ("Directory not found: " ++ cwd), [])

/-- MCP `stopService` (src/mcp-server.js lines 124-135): probes first and
fails without issuing the kill pipeline when nothing is running. -/
def stopService (probe : ExecOutcome) (port : Nat) : StopResult × List Effect :=
  let status := checkPort probe
  if status.running then
    (.success ("Stopped service on port " ++ toString port), [.killByPort port])
  else
    (.failure ("Nothing running on port " ++ toString port), [])

/-- A ServiceView as built by `getAllServicesStatus`
(src/mcp-server.js lines 57-76). -/
structure ServiceView where
  name : String
  port : Nat
  path : String
  type : String
  running : Bool
  pid : Option String
  startCmd : String
  github : Option String
  url : Option String
deriving DecidableEq

/-- MCP `getAllServicesStatus` (src/mcp-server.js lines 57-76): loads the
registry and joins each descriptor with its probe outcome (`probe` gives the
`lsof` outcome per port). -/
def getAllServicesStatus (config : ConfigRead) (probe : Nat → ExecOutcome) :
    List ServiceView :=
  (loadServices config).map (fun s =>
    let status := checkPort (probe s.port)
    { name := s.name, port := s.port, path := s.path, type := s.type,
      running := status.running, pid := status.pid, startCmd := s.startCmd,
      github := jsOrNull s.github,
      url := if status.running then some ("http://localhost:" ++ toString s.port)
        else none })

/-- `args?.filter || 'all'` in the `list_services` handler: a missing or
empty filter argument defaults to `all`. -/
def filterDefault : Option String → String
  | none => "all"
  | some f => if f = "" then "all" else f

/-- The filter dispatch of the `list_services` handler
(src/mcp-server.js lines 244-252). -/
def applyFilter (filter : String) (views : List ServiceView) : List ServiceView :=
  if filter = "running" then views.filter (fun s => s.running)
  else if filter = "stopped" then views.filter (fun s => !s.running)
  else if filter ∈ (["frontend", "backend", "api"] : List String) then
    views.filter (fun s => s.type == filter)
  else views

/-- The `list_services` handler (src/mcp-server.js lines 242-264), up to the
text formatting: the list of service views it renders. -/
def listServices (config : ConfigRead) (probe : Nat → ExecOutcome)
    (argFilter : Option String) : List ServiceView :=
  applyFilter (filterDefault argFilter) (getAllServicesStatus config probe)

/-- HTTP response of the `POST /api/start/{port}` handler: 404 with
`{error:'Service not found'}`, 500 with `{error: message}`, or 200 with
`{success:true, pid}`. -/
inductive HttpStartResponse where
  | notFound (error : String)
  | serverError (error : String)
  | ok (pid : Nat)
deriving DecidableEq

/-- HTTP `startService` (src/mcp-server.js lines 409-448): checks only that
the expanded directory exists, then spawns unconditionally — it performs no
port probe.  `childPid` is the OS-assigned pid of the spawned child. -/
def httpStartService (home : String) (fs : List String) (childPid : Nat)
    (service : Service) : Except String Nat × List Effect :=
  let cwd := expandPath home service.path
  if cwd ∈ fs then
    let parts := jsSplit ' ' service.startCmd
    (.ok childPid,
     [.spawnChild (parts.headD "") parts.tail cwd (toString service.port)])
  else
    (.error ("Directory not found: " ++ cwd), [])

/-- The `POST /api/start/{port}` handler (src/mcp-server.js lines 521-541):
looks up the descriptor in the loaded `services` list, 404s when absent,
else delegates to `httpStartService` and maps a rejection to a 500 body. -/
def httpStartHandler (home : String) (services : List Service)
    (fs : List String) (childPid : Nat) (port : Nat) :
    HttpStartResponse × List Effect :=
  match services.find? (fun s => s.port == port) with
  | none => (.notFound "Service not found", [])
  | some service =>
    match httpStartService home fs childPid service with
    | (.ok pid, effs) => (.ok pid, effs)
    | (.error msg, effs) => (.serverError msg, effs)

/-- HTTP `stopService` (src/mcp-server.js lines 451-458): issues the kill
pipeline unconditionally — no probe — and always resolves `{success:true}`. -/
def httpStopService (port : Nat) : Bool × List Effect :=
  (true, [.killByPort port])

/-- The `DELETE /api/services/{port}` handler (src/mcp-server.js lines
574-583): `config.services.filter(s => s.port !== port)`. -/
def removeByPort (services : List Service) (port : Nat) : List Service :=
  services.filter (fun s => s.port != port)

theorem count_filter_of_pos {α : Type} [DecidableEq α] (f : α → Bool) (l : List α)
    (x : α) (hx : f x = true) : List.count x (l.filter f) = List.count x l := by
  induction l with
  | nil => rfl
  | cons a t ih =>
    by_cases h : f a = true
    · rw [List.filter_cons_of_pos h, List.count_cons, List.count_cons, ih]
    · have hax : a ≠ x := fun he => h (by rw [he]; exact hx)
      rw [List.filter_cons_of_neg (by simpa using h), List.count_cons, ih]
      simp [hax, Ne.symm hax]

theorem count_filter_split {α : Type} [DecidableEq α] (p : α → Bool) (l : List α)
    (x : α) :
    List.count x (l.filter p) + List.count x (l.filter (fun a => !p a))
      = List.count x l := by
  by_cases h : p x = true
  · have h2 : x ∉ l.filter (fun a => !p a) := by simp [List.mem_filter, h]
    rw [count_filter_of_pos p l x h, List.count_eq_zero.mpr h2]
    exact Nat.add_zero _
  · have h2 : x ∉ l.filter p := by simp [List.mem_filter, h]
    rw [List.count_eq_zero.mpr h2, count_filter_of_pos (fun a => !p a) l x (by simp [h]),
      Nat.zero_add]

/-- C1 counterexample: with a probe outcome showing pid 555 bound to the
port, the HTTP front end's start handler still spawns a child process and
reports success — it never probes — so the claim that start on an
already-bound port fails with AlreadyRunning and spawns nothing "on both
front ends" is false on the HTTP front end. -/
theorem C1_counterexample :
    (checkPort ⟨false, "555"⟩).running = true
  ∧ (checkPort ⟨false, "555"⟩).pid = some "555"
  ∧ httpStartHandler "/Users/dev"
      [{ name := "api", port := 4000, path := "~/proj",
         startCmd := "node server.js", type := "backend", github := none }]
      ["/Users/dev/proj"] 777 4000
      = (.ok 777, [.spawnChild "node" ["server.js"] "/Users/dev/proj" "4000"]) :=
  ⟨rfl, rfl, rfl⟩

/-- C1 (amended): on the tool-call front end, start on a configured port
whose directory exists and that is already bound fails with the
already-in-use error carrying the owning pid, and spawns no process. -/
theorem C1_mcp_start_already_running (home : String) (config : ConfigRead)
    (fs : List String) (probe reprobe : ExecOutcome) (port : Nat) (s : Service)
    (hfind : (loadServices config).find? (fun s => s.port == port) = some s)
    (hdir : expandPath home s.path ∈ fs)
    (hrun : (checkPort probe).running = true) :
    startService home config fs probe reprobe port
      = (.failure ("Port " ++ toString port ++ " already in use (pid: "
          ++ jsShowOpt (checkPort probe).pid ++ ")"), []) := by
  simp only [startService, hfind]
  rw [if_pos hdir, if_pos hrun]

/-- C1 witness. -/
theorem C1_mcp_start_already_running_witness :
    startService "/Users/dev"
        (.ok [{ name := "api", port := 4000, path := "~/proj",
                startCmd := "node server.js", type := "backend", github := none }])
        ["/Users/dev/proj"] ⟨false, "555"⟩ ⟨false, "555"⟩ 4000
      = (.failure "Port 4000 already in use (pid: 555)", []) :=
  C1_mcp_start_already_running "/Users/dev" _ _ _ _ 4000
    { name := "api", port := 4000, path := "~/proj",
      startCmd := "node server.js", type := "backend", github := none }
    rfl (by decide) rfl

/-- C2 counterexample: with a probe outcome showing nothing bound, the HTTP
front end's stop handler still issues the kill pipeline and reports
success — it never probes — so the claim that stop on an unbound port
yields NothingRunning and issues no termination command "on both front
ends" is false on the HTTP front end. -/
theorem C2_counterexample :
    (checkPort ⟨true, ""⟩).running = false
  ∧ httpStopService 4000 = (true, [.killByPort 4000]) :=
  ⟨rfl, rfl⟩

/-- C2 (amended): on the tool-call front end, stop on a port whose probe
reports nothing running returns the NothingRunning failure and issues no
termination command. -/
theorem C2_mcp_stop_nothing_running (probe : ExecOutcome) (port : Nat)
    (h : (checkPort probe).running = false) :
    stopService probe port
      = (.failure ("Nothing running on port " ++ toString port), []) := by
  unfold stopService
  simp [h]

/-- C2 witness. -/
theorem C2_mcp_stop_nothing_running_witness :
    stopService ⟨true, ""⟩ 3000 = (.failure "Nothing running on port 3000", []) :=
  C2_mcp_stop_nothing_running ⟨true, ""⟩ 3000 rfl

/-- C3: for any registry contents and any fixed probe outcomes, the result
of `list_services` with filter "running" and with filter "stopped"
partition the result with filter "all": each view's multiplicity in the two
filtered lists sums to its multiplicity in the full list, and no view
appears in both. -/
theorem C3_running_stopped_partition (config : ConfigRead)
    (probe : Nat → ExecOutcome) (x : ServiceView) :
    List.count x (listServices config probe (some "running"))
      + List.count x (listServices config probe (some "stopped"))
      = List.count x (listServices config probe (some "all"))
    ∧ (x ∈ listServices config probe (some "running")
        → x ∉ listServices config probe (some "stopped")) := by
  have hall : listServices config probe (some "all")
      = getAllServicesStatus config probe := by
    simp [listServices, filterDefault, applyFilter]
  have hrun : listServices config probe (some "running")
      = (getAllServicesStatus config probe).filter (fun s => s.running) := by
    simp [listServices, filterDefault, applyFilter]
  have hstop : listServices config probe (some "stopped")
      = (getAllServicesStatus config probe).filter (fun s => !s.running) := by
    simp [listServices, filterDefault, applyFilter]
  rw [hall, hrun, hstop]
  refine ⟨count_filter_split (fun s => s.running) _ x, ?_⟩
  intro hx hx2
  rw [List.mem_filter] at hx hx2
  rw [hx.2] at hx2
  exact absurd hx2.2 (by simp)

/-- C3 witness. -/
theorem C3_running_stopped_partition_witness :
    List.count
        { name := "api", port := 3000, path := "~/proj", type := "backend",
          running := true, pid := some "12", startCmd := "node server.js",
          github := none, url := some "http://localhost:3000" }
        (listServices
          (.ok [{ name := "api", port := 3000, path := "~/proj",
                  startCmd := "node server.js", type := "backend", github := none }])
          (fun _ => ⟨false, "12"⟩) (some "running"))
      + List.count
        { name := "api", port := 3000, path := "~/proj", type := "backend",
          running := true, pid := some "12", startCmd := "node server.js",
          github := none, url := some "http://localhost:3000" }
        (listServices
          (.ok [{ name := "api", port := 3000, path := "~/proj",
                  startCmd := "node server.js", type := "backend", github := none }])
          (fun _ => ⟨false, "12"⟩) (some "stopped"))
      = List.count
        { name := "api", port := 3000, path := "~/proj", type := "backend",
          running := true, pid := some "12", startCmd := "node server.js",
          github := none, url := some "http://localhost:3000" }
        (listServices
          (.ok [{ name := "api", port := 3000, path := "~/proj",
                  startCmd := "node server.js", type := "backend", github := none }])
          (fun _ => ⟨false, "12"⟩) (some "all"))
    ∧ { name := "api", port := 3000, path := "~/proj", type := "backend",
        running := true, pid := some "12", startCmd := "node server.js",
        github := none, url := some "http://localhost:3000" }
      ∉ listServices
          (.ok [{ name := "api", port := 3000, path := "~/proj",
                  startCmd := "node server.js", type := "backend", github := none }])
          (fun _ => ⟨false, "12"⟩) (some "stopped") :=
  ⟨(C3_running_stopped_partition _ _ _).1,
   (C3_running_stopped_partition _ _ _).2 (by decide)⟩

/-- C4: filtering by one of the recognized type tags (frontend, backend,
api) returns exactly the views whose type field equals the tag; any filter
value outside the recognized set (all, running, stopped and the three type
tags) behaves the same as filter "all" and returns every service view. -/
theorem C4_type_and_unrecognized_filter (config : ConfigRead)
    (probe : Nat → ExecOutcome) (t f : String)
    (ht : t ∈ (["frontend", "backend", "api"] : List String))
    (hf : f ∉ (["all", "running", "stopped", "frontend", "backend", "api"] : List String)) :
    listServices config probe (some t)
      = (getAllServicesStatus config probe).filter (fun v => v.type == t)
    ∧ listServices config probe (some f) = getAllServicesStatus config probe
    ∧ listServices config probe (some "all") = getAllServicesStatus config probe := by
  refine ⟨?_, ?_, by simp [listServices, filterDefault, applyFilter]⟩
  · simp only [List.mem_cons, List.not_mem_nil, or_false] at ht
    rcases ht with h | h | h <;> subst h <;>
      simp [listServices, filterDefault, applyFilter]
  · by_cases h0 : f = ""
    · subst h0
      simp [listServices, filterDefault, applyFilter]
    · simp only [List.mem_cons, List.not_mem_nil, or_false, not_or] at hf
      obtain ⟨hfa, hfr, hfs, hff, hfb, hfapi⟩ := hf
      simp [listServices, filterDefault, h0, applyFilter, hfr, hfs, hff, hfb, hfapi]

/-- C4 witness. -/
theorem C4_type_and_unrecognized_filter_witness :
    listServices
        (.ok [{ name := "api", port := 3000, path := "~/a",
                startCmd := "npm start", type := "backend", github := none },
              { name := "web", port := 3001, path := "~/b",
                startCmd := "npm start", type := "frontend", github := none }])
        (fun _ => ⟨true, ""⟩) (some "backend")
      = (getAllServicesStatus
          (.ok [{ name := "api", port := 3000, path := "~/a",
                  startCmd := "npm start", type := "backend", github := none },
                { name := "web", port := 3001, path := "~/b",
                  startCmd := "npm start", type := "frontend", github := none }])
          (fun _ => ⟨true, ""⟩)).filter (fun v => v.type == "backend")
    ∧ listServices
        (.ok [{ name := "api", port := 3000, path := "~/a",
                startCmd := "npm start", type := "backend", github := none },
              { name := "web", port := 3001, path := "~/b",
                startCmd := "npm start", type := "frontend", github := none }])
        (fun _ => ⟨true, ""⟩) (some "worker")
      = getAllServicesStatus
          (.ok [{ name := "api", port := 3000, path := "~/a",
                  startCmd := "npm start", type := "backend", github := none },
                { name := "web", port := 3001, path := "~/b",
                  startCmd := "npm start", type := "frontend", github := none }])
          (fun _ => ⟨true, ""⟩)
    ∧ listServices
        (.ok [{ name := "api", port := 3000, path := "~/a",
                startCmd := "npm start", type := "backend", github := none },
              { name := "web", port := 3001, path := "~/b",
                startCmd := "npm start", type := "frontend", github := none }])
        (fun _ => ⟨true, ""⟩) (some "all")
      = getAllServicesStatus
          (.ok [{ name := "api", port := 3000, path := "~/a",
                  startCmd := "npm start", type := "backend", github := none },
                { name := "web", port := 3001, path := "~/b",
                  startCmd := "npm start", type := "frontend", github := none }])
          (fun _ => ⟨true, ""⟩) :=
  C4_type_and_unrecognized_filter _ _ "backend" "worker" (by decide) (by decide)

/-- C5: `findByPort` returns the first descriptor (in configuration load
order) whose port equals the argument, and none when no descriptor
matches; with duplicate ports it still returns the first in load order. -/
theorem C5_findByPort_first_match (l : List Service) (p : Nat) :
    (∀ s, findByPort l p = some s → s.port = p)
    ∧ (findByPort l p = none ↔ ∀ s ∈ l, s.port ≠ p)
    ∧ (∀ pre s post, l = pre ++ s :: post → s.port = p
        → (∀ t ∈ pre, t.port ≠ p) → findByPort l p = some s) := by
  refine ⟨?_, ?_, ?_⟩
  · intro s hs
    have := List.find?_some hs
    simpa using this
  · rw [findByPort, List.find?_eq_none]
    constructor
    · intro h s hs
      have := h s hs
      simpa using this
    · intro h s hs
      simpa using h s hs
  · intro pre s post hl hsp hpre
    subst hl
    induction pre with
    | nil =>
      rw [findByPort, List.nil_append, List.find?_cons_of_pos _ (by simpa using hsp)]
    | cons a rest ih =>
      have ha : a.port ≠ p := hpre a (by simp)
      have : findByPort (rest ++ s :: post) p = some s :=
        ih (fun t ht => hpre t (by simp [ht]))
      rw [findByPort, List.cons_append, List.find?_cons_of_neg _ (by simpa using ha)]
      exact this

/-- C5 witness: two descriptors share port 3000; the first in load order is
returned. -/
theorem C5_findByPort_first_match_witness :
    findByPort
        [{ name := "a", port := 3000, path := "~/a", startCmd := "npm start",
           type := "frontend", github := none },
         { name := "b", port := 3000, path := "~/b", startCmd := "npm run dev",
           type := "backend", github := none }] 3000
      = some { name := "a", port := 3000, path := "~/a", startCmd := "npm start",
               type := "frontend", github := none } :=
  (C5_findByPort_first_match _ 3000).2.2 []
    { name := "a", port := 3000, path := "~/a", startCmd := "npm start",
      type := "frontend", github := none }
    [{ name := "b", port := 3000, path := "~/b", startCmd := "npm run dev",
       type := "backend", github := none }] rfl rfl (by simp)

/-- C6: the probe's result is independent of the `exec` error flag (a
failing inspection command, whose captured output is empty, is reported
as not running with no pid, exactly like an unbound port, and no error is
propagated), and when the trimmed output lists one or more owners the
result is running with the first reported owner as the pid — in both the
MCP and the HTTP `checkPort`. -/
theorem C6_probe_behavior (e : Bool) (s : String) :
    checkPort ⟨e, s⟩ = checkPort ⟨false, s⟩
    ∧ checkPortHttp ⟨e, s⟩ = checkPortHttp ⟨false, s⟩
    ∧ (jsTrim s = "" →
        checkPort ⟨e, s⟩ = ⟨false, none⟩ ∧ checkPortHttp ⟨e, s⟩ = ⟨false, none⟩)
    ∧ (∀ p ps, jsSplit '\n' (jsTrim s) = p :: ps → p ≠ "" →
        checkPort ⟨e, s⟩ = ⟨true, some p⟩ ∧ checkPortHttp ⟨e, s⟩ = ⟨true, some p⟩) := by
  refine ⟨rfl, rfl, ?_, ?_⟩
  · intro h
    constructor
    · simp [checkPort, h, firstLineOrNull, jsSplit, splitCharAux, jsOrNull]
    · simp [checkPortHttp, h]
  · intro p ps hsplit hp
    have hne : jsTrim s ≠ "" := by
      intro h0
      rw [h0] at hsplit
      have h1 : (jsSplit '\n' "" : List String) = [""] := rfl
      rw [h1] at hsplit
      injection hsplit with h2 h3
      exact hp h2.symm
    constructor
    · simp [checkPort, firstLineOrNull, hsplit, jsOrNull, hp, hne]
    · simp [checkPortHttp, hne, hsplit]

/-- C6 witness. -/
theorem C6_probe_behavior_witness :
    checkPort ⟨true, ""⟩ = ⟨false, none⟩
    ∧ checkPort ⟨true, " 123\n456 "⟩ = ⟨true, some "123"⟩
    ∧ checkPortHttp ⟨true, " 123\n456 "⟩ = ⟨true, some "123"⟩ :=
  ⟨((C6_probe_behavior true "").2.2.1 rfl).1,
   ((C6_probe_behavior true " 123\n456 ").2.2.2 "123" ["456"] rfl (by decide)).1,
   ((C6_probe_behavior true " 123\n456 ").2.2.2 "123" ["456"] rfl (by decide)).2⟩

/-- C7: start on a port with no configured descriptor fails with the
service-not-found error, and start on a configured descriptor whose
expanded path does not exist fails with the directory-missing error; in
both cases no process is spawned — on both the tool-call and the HTTP
front end. -/
theorem C7_start_lookup_and_directory_failures (home : String)
    (config : ConfigRead) (fs : List String) (probe reprobe : ExecOutcome)
    (childPid port : Nat) :
    ((loadServices config).find? (fun s => s.port == port) = none →
        startService home config fs probe reprobe port
          = (.failure ("No service configured for port " ++ toString port), [])
      ∧ httpStartHandler home (loadServices config) fs childPid port
          = (.notFound "Service not found", []))
    ∧ (∀ s, (loadServices config).find? (fun s => s.port == port) = some s →
        expandPath home s.path ∉ fs →
          startService home config fs probe reprobe port
            = (.failure ("Directory not found: " ++ expandPath home s.path), [])
        ∧ httpStartHandler home (loadServices config) fs childPid port
            = (.serverError ("Directory not found: " ++ expandPath home s.path), [])) := by
  constructor
  · intro h
    constructor
    · simp only [startService, h]
    · simp only [httpStartHandler, h]
  · intro s hfind hdir
    constructor
    · simp only [startService, hfind]
      rw [if_neg hdir]
    · simp only [httpStartHandler, hfind, httpStartService]
      rw [if_neg hdir]

/-- C7 witness. -/
theorem C7_start_lookup_and_directory_failures_witness :
    startService "/Users/dev" (.ok []) [] ⟨true, ""⟩ ⟨true, ""⟩ 4000
      = (.failure "No service configured for port 4000", [])
    ∧ startService "/Users/dev"
        (.ok [{ name := "api", port := 4000, path := "~/gone",
                startCmd := "npm start", type := "backend", github := none }])
        [] ⟨true, ""⟩ ⟨true, ""⟩ 4000
      = (.failure "Directory not found: /Users/dev/gone", []) :=
  ⟨(((C7_start_lookup_and_directory_failures "/Users/dev" (.ok []) []
      ⟨true, ""⟩ ⟨true, ""⟩ 9 4000).1) rfl).1,
   ((C7_start_lookup_and_directory_failures "/Users/dev"
      (.ok [{ name := "api", port := 4000, path := "~/gone",
              startCmd := "npm start", type := "backend", github := none }])
      [] ⟨true, ""⟩ ⟨true, ""⟩ 9 4000).2
      { name := "api", port := 4000, path := "~/gone",
        startCmd := "npm start", type := "backend", github := none }
      rfl (by decide)).1⟩

/-- C8: with a registry holding exactly the descriptor
`{name: api, port: 4000, path: ~/proj, startCmd: node server.js,
type: backend}`, no process bound to port 4000 before or after the settling
delay, start(4000) splits the command on whitespace into `node` and
`server.js`, spawns it in the tilde-expanded directory with PORT set to
4000, and — the re-probe still showing the port unbound — returns success
with the still-initializing caveat message. -/
theorem C8_start_scenario (home : String) (probe reprobe : ExecOutcome)
    (h1 : jsTrim probe.stdout = "") (h2 : jsTrim reprobe.stdout = "") :
    startService home
        (.ok [{ name := "api", port := 4000, path := "~/proj",
                startCmd := "node server.js", type := "backend", github := none }])
        [home ++ "/proj"] probe reprobe 4000
      = (.success "api" 4000 false
          "Start command sent, but service may still be initializing",
         [.spawnChild "node" ["server.js"] (home ++ "/proj") "4000"]) := by
  have hrun : (checkPort probe).running = false := by simp [checkPort, h1]
  have hrun2 : (checkPort reprobe).running = false := by simp [checkPort, h2]
  have hexp : expandPath home "~/proj" = home ++ "/proj" := rfl
  simp only [startService, loadServices]
  rw [List.find?_cons_of_pos _ (by decide)]
  simp only [hexp, hrun, hrun2]
  rw [if_pos (by simp)]
  simp only [jsSplit, splitCharAux]
  rfl

/-- C8 witness. -/
theorem C8_start_scenario_witness :
    startService "/Users/dev"
        (.ok [{ name := "api", port := 4000, path := "~/proj",
                startCmd := "node server.js", type := "backend", github := none }])
        ["/Users/dev/proj"] ⟨true, ""⟩ ⟨true, ""⟩ 4000
      = (.success "api" 4000 false
          "Start command sent, but service may still be initializing",
         [.spawnChild "node" ["server.js"] "/Users/dev/proj" "4000"]) :=
  C8_start_scenario "/Users/dev" ⟨true, ""⟩ ⟨true, ""⟩ rfl rfl

/-- C9: when the configuration file is unreadable or malformed, the MCP
`loadServices` returns the empty list, so start reports that no service is
configured for the port and the status aggregation behind `list_services`
reports zero services. -/
theorem C9_bad_config_behaves_as_no_services (home : String) (fs : List String)
    (probe reprobe : ExecOutcome) (pr : Nat → ExecOutcome) (port : Nat)
    (argFilter : Option String) (config : ConfigRead)
    (h : config = .unreadable ∨ config = .malformed) :
    loadServices config = []
    ∧ startService home config fs probe reprobe port
        = (.failure ("No service configured for port " ++ toString port), [])
    ∧ getAllServicesStatus config pr = []
    ∧ listServices config pr argFilter = [] := by
  rcases h with h | h <;> subst h <;>
    exact ⟨rfl, rfl, rfl, by simp [listServices, getAllServicesStatus, loadServices, applyFilter]⟩

/-- C9 witness. -/
theorem C9_bad_config_behaves_as_no_services_witness :
    loadServices .malformed = []
    ∧ startService "/Users/dev" .malformed [] ⟨true, ""⟩ ⟨true, ""⟩ 4000
        = (.failure "No service configured for port 4000", [])
    ∧ getAllServicesStatus .malformed (fun _ => ⟨true, ""⟩) = []
    ∧ listServices .malformed (fun _ => ⟨true, ""⟩) (some "all") = [] :=
  C9_bad_config_behaves_as_no_services "/Users/dev" [] ⟨true, ""⟩ ⟨true, ""⟩
    (fun _ => ⟨true, ""⟩) 4000 (some "all") .malformed (Or.inr rfl)

/-- C10: the DELETE handler's rewrite removes every descriptor whose port
equals the given port — duplicates included — and keeps every descriptor
with a different port with unchanged multiplicity and in the original
relative order. -/
theorem C10_remove_by_port (l : List Service) (p : Nat) :
    (∀ s ∈ removeByPort l p, s.port ≠ p)
    ∧ (∀ s ∈ l, s.port ≠ p → s ∈ removeByPort l p)
    ∧ (removeByPort l p).Sublist l
    ∧ (∀ x : Service, x.port ≠ p → List.count x (removeByPort l p) = List.count x l) := by
  refine ⟨?_, ?_, List.filter_sublist l, ?_⟩
  · intro s hs
    have := (List.mem_filter.mp hs).2
    simpa using this
  · intro s hs hne
    exact List.mem_filter.mpr ⟨hs, by simpa using hne⟩
  · intro x hx
    exact count_filter_of_pos _ l x (by simpa using hx)

/-- C10 witness: a registry with a duplicated port 3000; removal drops both
copies and keeps the port-3001 descriptor. -/
theorem C10_remove_by_port_witness :
    { name := "b", port := 3001, path := "~/b", startCmd := "npm start",
      type := "frontend", github := none }
      ∈ removeByPort
        [{ name := "a", port := 3000, path := "~/a", startCmd := "npm start",
           type := "frontend", github := none },
         { name := "b", port := 3001, path := "~/b", startCmd := "npm start",
           type := "frontend", github := none },
         { name := "c", port := 3000, path := "~/c", startCmd := "npm start",
           type := "backend", github := none }] 3000
    ∧ ∀ s ∈ removeByPort
        [{ name := "a", port := 3000, path := "~/a", startCmd := "npm start",
           type := "frontend", github := none },
         { name := "b", port := 3001, path := "~/b", startCmd := "npm start",
           type := "frontend", github := none },
         { name := "c", port := 3000, path := "~/c", startCmd := "npm start",
           type := "backend", github := none }] 3000, s.port ≠ 3000 :=
  ⟨(C10_remove_by_port _ 3000).2.1
     { name := "b", port := 3001, path := "~/b", startCmd := "npm start",
       type := "frontend", github := none } (by decide) (by decide),
   (C10_remove_by_port _ 3000).1⟩

end LocalhostDashboard
